import Mathlib

/-
Verification of the particle-simulation core of `src/src/components/CircleCanvas.tsx`
against its natural-language specification.

Modelling conventions:
- Numeric values are rationals (`ℚ`). The source computes over JS doubles; the spec
  treats the arithmetic as exact real arithmetic, and every scenario in it uses
  values representable exactly, so `ℚ` is a faithful carrier.
- The source computes `distance = Math.sqrt(dx*dx + dy*dy)`. Square roots are not
  rational, so the force functions below take the already-computed distance `d` as an
  explicit argument, exactly as the loop body uses the local variable `distance`;
  theorems that need the Pythagorean relation state it as the hypothesis
  `d * d = dx * dx + dy * dy` (together with `0 < d`), which characterises
  `d = sqrt(dx² + dy²)` for a nonnegative `d`.
- Force magnitudes are compared through their squares (`fx² + fy²`), which for
  nonnegative magnitudes is equivalent to comparing the magnitudes themselves and
  stays inside `ℚ`.
-/

namespace CircleCanvas

/-- Pointer-repulsion force on one body, from `applyForces`, lines 279-290 of
`CircleCanvas.tsx`:
`dx = body.position.x - mx`, `dy = body.position.y - my`,
`distance = sqrt(dx*dx + dy*dy)` (passed here as `d`); if
`distance < pushRadius && distance > 1` then
`forceScale = (pushRadius - distance) / pushRadius` and the applied force is
`((dx/distance) * forceScale * pushStrength, (dy/distance) * forceScale * pushStrength)`,
otherwise no force is applied. -/
def mousePushForce (pushRadius pushStrength dx dy d : ℚ) : ℚ × ℚ :=
  if d < pushRadius ∧ d > 1 then
    (dx / d * ((pushRadius - d) / pushRadius) * pushStrength,
     dy / d * ((pushRadius - d) / pushRadius) * pushStrength)
  else
    (0, 0)

/-- Pairwise force applied to body A for the unordered pair (A, B), from
`applyForces`, lines 299-312 of `CircleCanvas.tsx`:
`dx = bodyB.position.x - bodyA.position.x`, `dy` likewise,
`distance = sqrt(dx*dx + dy*dy)` (passed here as `d`); the pair is skipped
(`continue`, i.e. zero contribution) when
`distance < particleRadius * 2 || distance > attractionRadius`; otherwise
`forceMagnitude = attractionStrength / (distance * distance)` and A receives
`((dx/distance) * forceMagnitude, (dy/distance) * forceMagnitude)`. -/
def pairForceOnA (particleRadius attractionRadius attractionStrength dx dy d : ℚ) : ℚ × ℚ :=
  if d < particleRadius * 2 ∨ d > attractionRadius then
    (0, 0)
  else
    (dx / d * (attractionStrength / (d * d)),
     dy / d * (attractionStrength / (d * d)))

/-- Pairwise force applied to body B for the unordered pair (A, B), from
`applyForces`, line 313 of `CircleCanvas.tsx`: under the same skip condition B
receives nothing, otherwise `(-forceX, -forceY)` with `forceX`, `forceY` as in
`pairForceOnA`. -/
def pairForceOnB (particleRadius attractionRadius attractionStrength dx dy d : ℚ) : ℚ × ℚ :=
  if d < particleRadius * 2 ∨ d > attractionRadius then
    (0, 0)
  else
    (-(dx / d * (attractionStrength / (d * d))),
     -(dy / d * (attractionStrength / (d * d))))

/-- Squared magnitude of the pointer-repulsion force. -/
def pushForceMagSq (pushRadius pushStrength dx dy d : ℚ) : ℚ :=
  (mousePushForce pushRadius pushStrength dx dy d).1 ^ 2 +
    (mousePushForce pushRadius pushStrength dx dy d).2 ^ 2

lemma pushForceMagSq_in_range (R S dx dy d : ℚ) (h1 : 1 < d) (h2 : d < R)
    (hp : d * d = dx * dx + dy * dy) :
    pushForceMagSq R S dx dy d = ((R - d) / R * S) ^ 2 := by
  have hd : (0 : ℚ) < d := lt_trans one_pos h1
  unfold pushForceMagSq mousePushForce
  rw [if_pos ⟨h2, h1⟩]
  have key : (dx / d * ((R - d) / R) * S) ^ 2 + (dy / d * ((R - d) / R) * S) ^ 2 =
      (dx * dx + dy * dy) / (d * d) * ((R - d) / R * S) ^ 2 := by
    ring
  dsimp only
  rw [key, ← hp, div_self (by positivity), one_mul]

/-- C1: for an in-range pair (2·radius ≤ d ≤ attractionRadius, positive strength),
the force on A is a positive scalar multiple of the vector from A toward B, its
squared magnitude is (attractionStrength / d²)², the force on B is the exact
componentwise negation of the force on A at every evaluation (both branches), and
in the concrete scenario (distance 100, attractionStrength 25000, B due east of A)
the force on A is (5/2, 0) and on B is (-5/2, 0), i.e. magnitude 2.5 along the
connecting line with opposite signs. -/
theorem pair_force_in_range_spec
    (r aR aS dx dy d : ℚ) (hd : 0 < d) (hS : 0 < aS)
    (hlo : r * 2 ≤ d) (hhi : d ≤ aR) (hp : d * d = dx * dx + dy * dy) :
    (∃ c : ℚ, 0 < c ∧ pairForceOnA r aR aS dx dy d = (c * dx, c * dy)) ∧
    (pairForceOnA r aR aS dx dy d).1 ^ 2 + (pairForceOnA r aR aS dx dy d).2 ^ 2 =
      (aS / (d * d)) ^ 2 ∧
    (∀ r₀ aR₀ aS₀ dx₀ dy₀ d₀ : ℚ,
        pairForceOnB r₀ aR₀ aS₀ dx₀ dy₀ d₀ =
          (-(pairForceOnA r₀ aR₀ aS₀ dx₀ dy₀ d₀).1,
           -(pairForceOnA r₀ aR₀ aS₀ dx₀ dy₀ d₀).2)) ∧
    pairForceOnA 7 150 25000 100 0 100 = (5 / 2, 0) ∧
    pairForceOnB 7 150 25000 100 0 100 = (-(5 / 2), 0) := by
  have hcond : ¬ (d < r * 2 ∨ d > aR) := by
    push_neg
    exact ⟨not_lt.mp (not_lt.mpr hlo), hhi⟩
  have hdne : d ≠ 0 := ne_of_gt hd
  refine ⟨?_, ?_, ?_, ?_, ?_⟩
  · refine ⟨aS / (d * d) / d, by positivity, ?_⟩
    unfold pairForceOnA
    rw [if_neg hcond]
    simp only [Prod.mk.injEq]
    constructor <;> · field_simp; ring
  · unfold pairForceOnA
    rw [if_neg hcond]
    have key : (dx / d * (aS / (d * d))) ^ 2 + (dy / d * (aS / (d * d))) ^ 2 =
        (dx * dx + dy * dy) / (d * d) * (aS / (d * d)) ^ 2 := by
      ring
    dsimp only
    rw [key, ← hp, div_self (by positivity), one_mul]
  · intro r₀ aR₀ aS₀ dx₀ dy₀ d₀
    unfold pairForceOnA pairForceOnB
    by_cases h : d₀ < r₀ * 2 ∨ d₀ > aR₀
    · rw [if_pos h, if_pos h]
      norm_num
    · rw [if_neg h, if_neg h]
  · unfold pairForceOnA
    norm_num
  · unfold pairForceOnB
    norm_num

/-- Closed-form instantiation of `pair_force_in_range_spec` at radius 7,
attractionRadius 150, attractionStrength 25000, displacement (100, 0),
distance 100. -/
theorem pair_force_in_range_spec_witness :
    (∃ c : ℚ, 0 < c ∧ pairForceOnA 7 150 25000 100 0 100 = (c * 100, c * 0)) ∧
    (pairForceOnA 7 150 25000 100 0 100).1 ^ 2 +
        (pairForceOnA 7 150 25000 100 0 100).2 ^ 2 = (25000 / (100 * 100)) ^ 2 ∧
    (∀ r₀ aR₀ aS₀ dx₀ dy₀ d₀ : ℚ,
        pairForceOnB r₀ aR₀ aS₀ dx₀ dy₀ d₀ =
          (-(pairForceOnA r₀ aR₀ aS₀ dx₀ dy₀ d₀).1,
           -(pairForceOnA r₀ aR₀ aS₀ dx₀ dy₀ d₀).2)) ∧
    pairForceOnA 7 150 25000 100 0 100 = (5 / 2, 0) ∧
    pairForceOnB 7 150 25000 100 0 100 = (-(5 / 2), 0) :=
  pair_force_in_range_spec 7 150 25000 100 0 100 (by norm_num) (by norm_num)
    (by norm_num) (by norm_num) (by norm_num)

/-- C2 counterexample: at distance exactly 2 × radius (radius 7, distance 14, a
configuration with B at (14, 0) relative to A, so `sqrt(dx² + dy²) = 14` exactly)
the skip condition `distance < particleRadius * 2` is false, so the code applies a
nonzero force to both bodies, refuting the claim that the contribution is exactly
zero whenever distance ≤ 2 × radius. -/
theorem pair_force_at_exact_double_radius_nonzero :
    (14 : ℚ) ≤ 7 * 2 ∧
    pairForceOnA 7 150 25000 14 0 14 ≠ (0, 0) ∧
    pairForceOnB 7 150 25000 14 0 14 ≠ (0, 0) := by
  refine ⟨by norm_num, ?_, ?_⟩
  · unfold pairForceOnA
    norm_num [Prod.ext_iff]
  · unfold pairForceOnB
    norm_num [Prod.ext_iff]

/-- C2 amended: the pairwise contribution on both A and B is exactly zero whenever
distance < 2 × radius (strictly) or distance > attractionRadius; at distance exactly
2 × radius the force is applied (see the counterexample). -/
theorem pair_force_out_of_range_zero
    (r aR aS dx dy d : ℚ) (h : d < r * 2 ∨ d > aR) :
    pairForceOnA r aR aS dx dy d = (0, 0) ∧
    pairForceOnB r aR aS dx dy d = (0, 0) := by
  unfold pairForceOnA pairForceOnB
  rw [if_pos h, if_pos h]
  exact ⟨rfl, rfl⟩

/-- Closed-form instantiation of `pair_force_out_of_range_zero` at distance 200,
beyond attractionRadius 150. -/
theorem pair_force_out_of_range_zero_witness :
    pairForceOnA 7 150 25000 200 0 200 = (0, 0) ∧
    pairForceOnB 7 150 25000 200 0 200 = (0, 0) :=
  pair_force_out_of_range_zero 7 150 25000 200 0 200 (by norm_num)

/-- C3: for a particle at computed distance d from the pointer, with displacement
(dx, dy) from pointer to particle: if 1 < d < pushRadius the applied force is a
positive scalar multiple of (dx, dy) (pushing away from the pointer) with squared
magnitude (((pushRadius − d)/pushRadius) · pushStrength)²; if d ≤ 1 or
d ≥ pushRadius the contribution is exactly zero; and with pushRadius 80 and a
particle 40 due east of the pointer the force is (pushStrength/2, 0), i.e.
magnitude 0.5 × pushStrength. -/
theorem mouse_push_force_spec
    (R S dx dy d : ℚ) (hS : 0 < S) (hp : d * d = dx * dx + dy * dy) :
    ((1 < d ∧ d < R) →
      (∃ c : ℚ, 0 < c ∧ mousePushForce R S dx dy d = (c * dx, c * dy)) ∧
      pushForceMagSq R S dx dy d = ((R - d) / R * S) ^ 2) ∧
    ((d ≤ 1 ∨ R ≤ d) → mousePushForce R S dx dy d = (0, 0)) ∧
    (∀ S₀ : ℚ, mousePushForce 80 S₀ 40 0 40 = (S₀ / 2, 0)) := by
  refine ⟨?_, ?_, ?_⟩
  · rintro ⟨h1, h2⟩
    have hd : (0 : ℚ) < d := lt_trans one_pos h1
    have hR : (0 : ℚ) < R := lt_trans hd h2
    have hRd : (0 : ℚ) < R - d := by linarith
    constructor
    · refine ⟨(R - d) / R * S / d, by positivity, ?_⟩
      unfold mousePushForce
      rw [if_pos ⟨h2, h1⟩]
      simp only [Prod.mk.injEq]
      constructor <;> · field_simp; ring
    · exact pushForceMagSq_in_range R S dx dy d h1 h2 hp
  · intro h
    unfold mousePushForce
    rw [if_neg]
    rintro ⟨hdR, hd1⟩
    rcases h with h | h
    · exact absurd hd1 (not_lt.mpr h)
    · exact absurd hdR (not_lt.mpr h)
  · intro S₀
    unfold mousePushForce
    norm_num
    ring

/-- Closed-form instantiation of `mouse_push_force_spec` at pushRadius 80,
pushStrength 30000, particle at (40, 0) relative to the pointer, distance 40. -/
theorem mouse_push_force_spec_witness :
    (((1 : ℚ) < 40 ∧ (40 : ℚ) < 80) →
      (∃ c : ℚ, 0 < c ∧ mousePushForce 80 30000 40 0 40 = (c * 40, c * 0)) ∧
      pushForceMagSq 80 30000 40 0 40 = ((80 - 40) / 80 * 30000) ^ 2) ∧
    (((40 : ℚ) ≤ 1 ∨ (80 : ℚ) ≤ 40) → mousePushForce 80 30000 40 0 40 = (0, 0)) ∧
    (∀ S₀ : ℚ, mousePushForce 80 S₀ 40 0 40 = (S₀ / 2, 0)) :=
  mouse_push_force_spec 80 30000 40 0 40 (by norm_num) (by norm_num)

/-- C4: for fixed positive pushStrength and any two pointer distances
1 < d₁ < d₂ < pushRadius (each realised by an actual displacement), the squared
pointer-force magnitude at the larger distance is strictly smaller — i.e. the
force magnitude strictly decreases as distance increases on (1, pushRadius). -/
theorem mouse_push_force_strict_decreasing
    (R S d₁ d₂ dx₁ dy₁ dx₂ dy₂ : ℚ) (hS : 0 < S)
    (h1 : 1 < d₁) (h12 : d₁ < d₂) (h2R : d₂ < R)
    (hp1 : d₁ * d₁ = dx₁ * dx₁ + dy₁ * dy₁)
    (hp2 : d₂ * d₂ = dx₂ * dx₂ + dy₂ * dy₂) :
    pushForceMagSq R S dx₂ dy₂ d₂ < pushForceMagSq R S dx₁ dy₁ d₁ := by
  have h1' : (1 : ℚ) < d₂ := lt_trans h1 h12
  have hR : (0 : ℚ) < R := by linarith
  rw [pushForceMagSq_in_range R S dx₁ dy₁ d₁ h1 (lt_trans h12 h2R) hp1,
      pushForceMagSq_in_range R S dx₂ dy₂ d₂ h1' h2R hp2]
  have hbase2 : (0 : ℚ) ≤ (R - d₂) / R * S := by
    have hpos : (0 : ℚ) < R - d₂ := by linarith
    positivity
  have hdiv : (R - d₂) / R < (R - d₁) / R := by
    rw [div_lt_div_iff₀ hR hR]
    nlinarith
  have hlt : (R - d₂) / R * S < (R - d₁) / R * S :=
    mul_lt_mul_of_pos_right hdiv hS
  exact pow_lt_pow_left₀ hlt hbase2 (by norm_num)

/-- Closed-form instantiation of `mouse_push_force_strict_decreasing` at
pushRadius 80, pushStrength 30000, distances 30 and 40 along the x-axis. -/
theorem mouse_push_force_strict_decreasing_witness :
    pushForceMagSq 80 30000 40 0 40 < pushForceMagSq 80 30000 30 0 30 :=
  mouse_push_force_strict_decreasing 80 30000 30 40 30 0 40 0 (by norm_num)
    (by norm_num) (by norm_num) (by norm_num) (by norm_num) (by norm_num)

/-- Delta-time computation from `animate`, line 86 of `CircleCanvas.tsx`:
`prevTimeRef.current ? Math.min((time - prevTimeRef.current) / 1000, 0.1) : 0.016`.
`prevTimeRef` starts at 0 (line 16) and JS treats 0 as falsy, so before any
timestamp history exists the result is 0.016. Timestamps are in milliseconds and
`/ 1000` converts the elapsed time to seconds. -/
def computeDeltaTime (prevTime time : ℚ) : ℚ :=
  if prevTime = 0 then 0.016 else min ((time - prevTime) / 1000) 0.1

/-- C6: with timestamp history present the effective dt is
min(elapsed-seconds, 0.1), hence never exceeds 0.1 per call; with no history the
effective dt is 0.016; and a frame whose elapsed time is 5.0 seconds
(timestamps 1000 ms then 6000 ms) uses an effective delta of exactly 0.1. -/
theorem delta_time_clamp_spec (prevTime time : ℚ) (h : prevTime ≠ 0) :
    computeDeltaTime prevTime time = min ((time - prevTime) / 1000) (1 / 10) ∧
    computeDeltaTime prevTime time ≤ 1 / 10 ∧
    (∀ t : ℚ, computeDeltaTime 0 t = 2 / 125) ∧
    computeDeltaTime 1000 6000 = 1 / 10 := by
  refine ⟨?_, ?_, ?_, ?_⟩
  · unfold computeDeltaTime
    rw [if_neg h]
    norm_num
  · unfold computeDeltaTime
    rw [if_neg h]
    have : (0.1 : ℚ) = 1 / 10 := by norm_num
    rw [this]
    exact min_le_right _ _
  · intro t
    unfold computeDeltaTime
    norm_num
  · unfold computeDeltaTime
    norm_num

/-- Closed-form instantiation of `delta_time_clamp_spec` at the scenario
timestamps prevTime = 1000 ms, time = 6000 ms. -/
theorem delta_time_clamp_spec_witness :
    computeDeltaTime 1000 6000 = min ((6000 - 1000) / 1000) (1 / 10) ∧
    computeDeltaTime 1000 6000 ≤ 1 / 10 ∧
    (∀ t : ℚ, computeDeltaTime 0 t = 2 / 125) ∧
    computeDeltaTime 1000 6000 = 1 / 10 :=
  delta_time_clamp_spec 1000 6000 (by norm_num)

/-- The operations of one frame of `animate`, lines 83-95 of `CircleCanvas.tsx`,
in source order: `world.step(deltaTime)` (line 89), `applyForces()` (line 91),
`updateParticlePositions()` — the Render Sync — (line 92), `renderer.render`
(line 94). -/
inductive FrameOp
  | step
  | applyForces
  | renderSync
  | render
deriving DecidableEq, BEq

/-- The frame trace of `animate` in execution order. -/
def animateOps : List FrameOp :=
  [FrameOp.step, FrameOp.applyForces, FrameOp.renderSync, FrameOp.render]

/-- Modelled from the spec: the Physics Stepper contract of §4.4 — the stepping
primitive `world.step` lives in the cannon-es library and is not under src/.
Per the spec, step(dt) integrates gravity plus the accumulated external force
into velocity (particle mass is 1), advances position, and then clears the force
accumulator. One coordinate (the y axis, the one with nonzero gravity) is shown. -/
structure PBody where
  pos : ℚ
  vel : ℚ
  force : ℚ
deriving DecidableEq

/-- The y component set by `world.gravity.set(0, -1000, 0)`, line 37. -/
def gravityY : ℚ := -1000

/-- Modelled from the spec: one `step(dt)` on a single body (see `PBody`). -/
def stepBody (dt : ℚ) (b : PBody) : PBody :=
  { pos := b.pos + dt * (b.vel + dt * (gravityY + b.force)),
    vel := b.vel + dt * (gravityY + b.force),
    force := 0 }

/-- A Force Model write to a body's force accumulator (`body.applyForce`,
lines 288 and 312-313). -/
def accumulateForce (f : ℚ) (b : PBody) : PBody :=
  { b with force := b.force + f }

/-- One frame of `animate` acting on a single body, in the order the source
executes it (lines 89-91): `world.step` first, `applyForces` after, the Force
Model writing a net force `f`. -/
def runFrame (dt f : ℚ) (b : PBody) : PBody :=
  accumulateForce f (stepBody dt b)

/-- C5 counterexample: in the frame trace of `animate` the Force Model
(`applyForces`) does not run before the Stepper (`world.step`) — the source calls
`world.step` first — and consequently the force written by frame 1 (here 500, on
a body at rest with an empty accumulator, dt = 1/100) is absent from frame 1's
velocity: the step of the same frame yields velocity dt·gravity, not
dt·(gravity + 500). -/
theorem forces_not_before_step :
    ¬ (animateOps.indexOf FrameOp.applyForces < animateOps.indexOf FrameOp.step) ∧
    (runFrame (1 / 100) 500 ⟨0, 0, 0⟩).vel ≠ (1 / 100) * (gravityY + 500) := by
  refine ⟨by decide, ?_⟩
  unfold runFrame stepBody accumulateForce gravityY
  norm_num

/-- C5 amended: within each frame `animate` invokes the Physics Stepper's step
first, then the Force Model, then Render Sync (so Render Sync does run after the
step, and also after the Force Model); consequently forces computed in frame N
are consumed by the step of frame N+1, not of frame N: starting from rest with an
empty accumulator, after one frame the velocity is dt·gravity regardless of the
force written that frame, and after the second frame that force appears. -/
theorem step_precedes_force_model :
    animateOps.indexOf FrameOp.step < animateOps.indexOf FrameOp.applyForces ∧
    animateOps.indexOf FrameOp.step < animateOps.indexOf FrameOp.renderSync ∧
    animateOps.indexOf FrameOp.applyForces < animateOps.indexOf FrameOp.renderSync ∧
    (∀ dt f : ℚ, (runFrame dt f ⟨0, 0, 0⟩).vel = dt * gravityY) ∧
    (∀ dt f : ℚ, (runFrame dt f (runFrame dt f ⟨0, 0, 0⟩)).vel =
      dt * gravityY + dt * (gravityY + f)) := by
  refine ⟨by decide, by decide, by decide, ?_, ?_⟩ <;>
    · intro dt f
      unfold runFrame stepBody accumulateForce
      ring_nf

/-- A body in the World as the resize/boundary code sees it: `isParticle` is
membership in `bodiesRef.current` (the source identifies particle bodies only
through `particleBodies.includes(body)`, lines 134-137); `x, y` is the body
position (z is always 0); for walls `w, h` are the full extents passed to
`createWall` (the CANNON.Box half-extents are w/2, h/2, thickness/2, line 245);
`mass` is the body mass. -/
structure WBody where
  isParticle : Bool
  x : ℚ
  y : ℚ
  w : ℚ
  h : ℚ
  mass : ℚ
deriving DecidableEq

/-- `boundaryThickness`, line 223. -/
def boundaryThickness : ℚ := 50

/-- `createWall`, lines 244-253: a static body (mass 0, line 247) at `(x, y)`
with extents `(w, h)`, added to the world. -/
def createWall (x y w h : ℚ) : WBody :=
  ⟨false, x, y, w, h, 0⟩

/-- The four walls added by `createBoundaries`, lines 256-259, in source order
top, bottom, left, right, for a boxWidth × boxHeight viewport. -/
def boundaryWalls (boxWidth boxHeight : ℚ) : List WBody :=
  [createWall 0 (boxHeight / 2 + boundaryThickness / 2) boxWidth boundaryThickness,
   createWall 0 (-(boxHeight / 2) - boundaryThickness / 2) boxWidth boundaryThickness,
   createWall (-(boxWidth / 2) - boundaryThickness / 2) 0 boundaryThickness boxHeight,
   createWall (boxWidth / 2 + boundaryThickness / 2) 0 boundaryThickness boxHeight]

/-- The boundary rebuild of `handleResize`, lines 131-143: every body of the
world that is not in `bodiesRef.current` is removed (the backwards in-place
removal keeps the surviving order), then `createBoundaries` appends the four new
walls. -/
def rebuildBoundaries (boxWidth boxHeight : ℚ) (bodies : List WBody) : List WBody :=
  bodies.filter (fun b => b.isParticle) ++ boundaryWalls boxWidth boxHeight

lemma filter_particle_of_filter_particle (bs : List WBody) :
    ((bs.filter fun b => b.isParticle).filter fun b => b.isParticle) =
      bs.filter fun b => b.isParticle := by
  induction bs with
  | nil => rfl
  | cons a t ih =>
      by_cases h : a.isParticle <;> simp [List.filter_cons, h, ih]

lemma filter_not_particle_of_filter_particle (bs : List WBody) :
    ((bs.filter fun b => b.isParticle).filter fun b => !b.isParticle) = [] := by
  induction bs with
  | nil => rfl
  | cons a t ih =>
      by_cases h : a.isParticle <;> simp [List.filter_cons, h, ih]

lemma boundaryWalls_filter_not_particle (W H : ℚ) :
    ((boundaryWalls W H).filter fun b => !b.isParticle) = boundaryWalls W H := by
  simp [boundaryWalls, createWall, List.filter_cons]

lemma boundaryWalls_filter_particle (W H : ℚ) :
    ((boundaryWalls W H).filter fun b => b.isParticle) = [] := by
  simp [boundaryWalls, createWall, List.filter_cons]

lemma rebuildBoundaries_filter_not_particle (W H : ℚ) (bodies : List WBody) :
    ((rebuildBoundaries W H bodies).filter fun b => !b.isParticle) =
      boundaryWalls W H := by
  unfold rebuildBoundaries
  rw [List.filter_append, filter_not_particle_of_filter_particle,
    boundaryWalls_filter_not_particle, List.nil_append]

lemma rebuildBoundaries_filter_particle (W H : ℚ) (bodies : List WBody) :
    ((rebuildBoundaries W H bodies).filter fun b => b.isParticle) =
      bodies.filter fun b => b.isParticle := by
  unfold rebuildBoundaries
  rw [List.filter_append, filter_particle_of_filter_particle,
    boundaryWalls_filter_particle, List.append_nil]

/-- C7: the rebuild removes exactly the non-particle bodies (afterwards the
non-particle bodies are exactly the four fresh walls), leaves the particle
sublist — count, order and positions — unchanged, creates exactly four walls,
all static (mass 0) and non-particle, at top (0, H/2 + 50/2) sized (W, 50),
bottom mirrored, left (−W/2 − 50/2, 0) sized (50, H), right mirrored, with
thickness 50; and a second rebuild with the same dimensions yields boundaries
with identical position and size and again leaves the particles unchanged. -/
theorem rebuild_boundaries_spec (W H : ℚ) (bodies : List WBody) :
    ((rebuildBoundaries W H bodies).filter fun b => !b.isParticle) =
      boundaryWalls W H ∧
    ((rebuildBoundaries W H bodies).filter fun b => b.isParticle) =
      (bodies.filter fun b => b.isParticle) ∧
    (boundaryWalls W H).length = 4 ∧
    (∀ b ∈ boundaryWalls W H, b.mass = 0 ∧ b.isParticle = false) ∧
    boundaryWalls W H =
      [⟨false, 0, H / 2 + 50 / 2, W, 50, 0⟩,
       ⟨false, 0, -(H / 2) - 50 / 2, W, 50, 0⟩,
       ⟨false, -(W / 2) - 50 / 2, 0, 50, H, 0⟩,
       ⟨false, W / 2 + 50 / 2, 0, 50, H, 0⟩] ∧
    ((rebuildBoundaries W H (rebuildBoundaries W H bodies)).filter
        fun b => !b.isParticle) =
      ((rebuildBoundaries W H bodies).filter fun b => !b.isParticle) ∧
    ((rebuildBoundaries W H (rebuildBoundaries W H bodies)).filter
        fun b => b.isParticle) =
      (bodies.filter fun b => b.isParticle) := by
  refine ⟨rebuildBoundaries_filter_not_particle W H bodies,
    rebuildBoundaries_filter_particle W H bodies, rfl, ?_, ?_, ?_, ?_⟩
  · intro b hb
    simp [boundaryWalls, createWall] at hb
    rcases hb with h | h | h | h <;> subst h <;> exact ⟨rfl, rfl⟩
  · simp [boundaryWalls, createWall, boundaryThickness]
  · rw [rebuildBoundaries_filter_not_particle, rebuildBoundaries_filter_not_particle]
  · rw [rebuildBoundaries_filter_particle, rebuildBoundaries_filter_particle]

/-- Contact-material registration in `createBoundaries`, lines 230-242: whenever
`bodiesRef.current.length > 0`, a fresh particle–boundary ContactMaterial with
friction 0.0 and restitution 0.5 is constructed and `world.addContactMaterial`
appends it to the world — unconditionally, with no check whether one is already
registered. The list holds the (friction, restitution) pairs registered so far;
`numParticleBodies` is `bodiesRef.current.length`. -/
def registerBoundaryContacts (numParticleBodies : ℕ) (contacts : List (ℚ × ℚ)) :
    List (ℚ × ℚ) :=
  if 0 < numParticleBodies then contacts ++ [(0, 1 / 2)] else contacts

/-- C8 counterexample: `createBoundaries` runs once at mount (line 76) and once
per resize (line 142); with the default 1000 particle bodies present, after the
mount call and a single rebuild the world holds 2 registered particle–boundary
contact materials, refuting the claim that their number never exceeds one. -/
theorem boundary_contact_registered_per_rebuild :
    1 < (registerBoundaryContacts 1000 (registerBoundaryContacts 1000 [])).length := by
  norm_num [registerBoundaryContacts]

/-- C8 amended: every `createBoundaries` call with a nonempty particle store
registers one additional (friction 0, restitution 1/2) particle–boundary contact
material (a call with an empty store registers none), so after k rebuilds with
particles present exactly k contact materials are registered — the count grows
with rebuilds instead of staying at one. -/
theorem boundary_contact_growth (n : ℕ) (contacts : List (ℚ × ℚ)) :
    registerBoundaryContacts (n + 1) contacts = contacts ++ [(0, 1 / 2)] ∧
    registerBoundaryContacts 0 contacts = contacts ∧
    (∀ k : ℕ,
      ((fun c => registerBoundaryContacts (n + 1) c)^[k] []).length = k) := by
  refine ⟨by simp [registerBoundaryContacts], by simp [registerBoundaryContacts], ?_⟩
  intro k
  induction k with
  | zero => rfl
  | succ m ih =>
      rw [Function.iterate_succ_apply']
      have h : ∀ c : List (ℚ × ℚ),
          registerBoundaryContacts (n + 1) c = c ++ [(0, 1 / 2)] :=
        fun c => by simp [registerBoundaryContacts]
      rw [h, List.length_append, ih]
      rfl

/-- The component state relevant to the particle-count claim: the initialisation
`useEffect` (lines 29-107) has an empty dependency array (line 107), so its body
— which calls `createParticles` (line 73) — runs exactly once, at mount.
`createParticles` (lines 146-216) pushes one mesh and one body per loop index
`i = 0 .. numParticles − 1` and stores both arrays (lines 214-215); `bodies` and
`meshes` hold the creation indices of `bodiesRef.current` and
`particlesRef.current`. -/
structure Component where
  numParticles : ℕ
  bodies : List ℕ
  meshes : List ℕ
deriving DecidableEq

/-- `createParticles` with closed-over particle count n: one body and one mesh
per loop index. -/
def createParticles (n : ℕ) : List ℕ × List ℕ :=
  (List.range n, List.range n)

/-- Mounting the component with particle count n: the effect runs once and
creates the index-aligned collections. -/
def mount (n : ℕ) : Component :=
  ⟨n, (createParticles n).1, (createParticles n).2⟩

/-- A `setNumParticles` state update after mount: the initialisation effect's
dependency array is `[]`, so the effect body never re-runs on a re-render; only
the state value changes and `bodiesRef` / `particlesRef` are untouched. -/
def setNumParticles (n : ℕ) (c : Component) : Component :=
  { c with numParticles := n }

/-- C9 counterexample: changing the configured particle count from 1000 to 500
does not discard or recreate anything — the initialisation effect never re-runs —
so the Body Store and the renderable list both still hold 1000 entries, not 500,
refuting the claimed rebuild to 500 aligned entries. -/
theorem particle_count_change_no_rebuild :
    (setNumParticles 500 (mount 1000)).bodies.length = 1000 ∧
    (setNumParticles 500 (mount 1000)).meshes.length = 1000 ∧
    (setNumParticles 500 (mount 1000)).bodies.length ≠ 500 := by
  refine ⟨?_, ?_, ?_⟩ <;> simp [setNumParticles, mount, createParticles]

/-- C9 amended: changing the configured particle count leaves the Body Store and
the renderable list exactly as they were created at mount — both keep their
original n index-aligned entries (they are equal lists of creation indices), and
no rebuild occurs, because the initialisation effect has an empty dependency
array and runs only at mount. -/
theorem particle_count_change_leaves_collections (n m : ℕ) :
    (setNumParticles m (mount n)).bodies = (mount n).bodies ∧
    (setNumParticles m (mount n)).meshes = (mount n).meshes ∧
    (setNumParticles m (mount n)).bodies.length = n ∧
    (setNumParticles m (mount n)).meshes.length = n ∧
    (setNumParticles m (mount n)).bodies = (setNumParticles m (mount n)).meshes := by
  refine ⟨rfl, rfl, ?_, ?_, rfl⟩ <;> simp [setNumParticles, mount, createParticles]

/-- The World as set up in the effect, lines 36-40 of `CircleCanvas.tsx`:
`new CANNON.World()` followed by `world.gravity.set(0, -1000, 0)` (line 37); the
world also carries the body list and the registered contact materials, the only
world state the other operations mutate. No statement of `CircleCanvas.tsx`
writes `world.gravity` after line 37. -/
structure World where
  gravity : ℚ × ℚ × ℚ
  bodies : List WBody
  contacts : List (ℚ × ℚ)
deriving DecidableEq

/-- The world right after construction and the gravity assignment of line 37. -/
def initWorld : World :=
  ⟨(0, -1000, 0), [], []⟩

/-- The `handleResize` world mutation (lines 131-143) : bodies rebuilt, a contact
material possibly registered, gravity untouched. `n` is the particle-body count. -/
def worldHandleResize (W H : ℚ) (n : ℕ) (w : World) : World :=
  { w with bodies := rebuildBoundaries W H w.bodies,
           contacts := registerBoundaryContacts n w.contacts }

/-- C10: at construction the gravity vector is (0, −1000, 0); the only world
mutation the source performs after that (the resize rebuild) preserves it; and
under the spec's Stepper contract every mass-1 body's velocity changes by
dt · (gravity + accumulated force) per step, i.e. a constant downward
gravitational acceleration of magnitude 1000 acts in every physics step. -/
theorem gravity_constant_spec :
    initWorld.gravity = (0, -1000, 0) ∧
    gravityY = -1000 ∧
    (∀ (W H : ℚ) (n : ℕ) (w : World),
      (worldHandleResize W H n w).gravity = w.gravity) ∧
    (∀ (dt : ℚ) (b : PBody),
      (stepBody dt b).vel = b.vel + dt * (gravityY + b.force)) := by
  refine ⟨rfl, rfl, ?_, ?_⟩
  · intro W H n w
    rfl
  · intro dt b
    rfl

end CircleCanvas
